import Mathlib

/-!
# Verification of the sale-estimate resource service (bigcapital)

Shallow embedding of `SaleEstimateService` (src/unnamed/part_002) and the
`deleteBill` Redux action creator (same file, frontend part).  Tenant storage
is modelled as an explicit record of tables; every ORM call of the service is
translated to a pure operation on that record.  Asynchronous service methods
that may throw `ServiceError` become functions into `Except ServiceError _`.

Model classes and helper services that are only *called* by the code under
`src/` (ItemEntry.calcAmount, CustomersService.getCustomer,
ItemsEntriesService validators, the pagination plugin, formatDateFields,
upsertGraph semantics) are modelled from the specification; each such
definition carries a doc comment saying so.
-/

/-- Errors raised by the service, mirroring the `ERRORS` constant of the
source file.  Payload-carrying variants model the "payload of offending ids"
the spec attaches to referenced-entity errors. -/
inductive ServiceError where
  | saleEstimateNotFound
  | customerNotFound
  | saleEstimateNumberExistance
  | itemsIdsNotExists (missingIds : List Nat)
  | itemsNotSellable (ids : List Nat)
  | entriesIdsNotFound (ids : List Nat)
  deriving Repr, DecidableEq

/-- The stable string code of each error, as in the `ERRORS` constant of the
source (`ITEMS_IDS_NOT_EXISTS` etc.; the entries/sellable codes live in
`ItemsEntriesService`, outside src/, and are named from the spec taxonomy). -/
def ServiceError.code : ServiceError → String
  | .saleEstimateNotFound => "SALE_ESTIMATE_NOT_FOUND"
  | .customerNotFound => "CUSTOMER_NOT_FOUND"
  | .saleEstimateNumberExistance => "SALE_ESTIMATE_NUMBER_EXISTANCE"
  | .itemsIdsNotExists _ => "ITEMS_IDS_NOT_EXISTS"
  | .itemsNotSellable _ => "ITEMS_NOT_SELLABLE"
  | .entriesIdsNotFound _ => "ENTRIES_IDS_NOT_FOUND"

/-- A line-item entry of a create/edit DTO.  Fields follow the spec's inbound
DTO shape `entries: [{ itemId, quantity, rate, id? }]`; `total` and `amount`
are the client-supplied fields the write path discards via `omit`. -/
structure EntryDTO where
  itemId : Nat
  quantity : Int
  rate : Int
  id : Option Nat := none
  total : Option Int := none
  amount : Option Int := none
  deriving Repr, DecidableEq

/-- The sale-estimate DTO (`ISaleEstimateDTO`).  The interface itself lives in
`interfaces`, outside src/; fields follow the spec's inbound DTO shape:
natural-key field, counterparty id, date fields and entries.  Dates are
modelled as canonical day numbers. -/
structure SaleEstimateDTO where
  estimateNumber : String
  customerId : Nat
  estimateDate : Nat
  expirationDate : Nat
  entries : List EntryDTO
  deriving Repr, DecidableEq

/-- A persisted sale-estimate row. -/
structure StoredEstimate where
  id : Nat
  estimateNumber : String
  customerId : Nat
  amount : Int
  estimateDate : Nat
  expirationDate : Nat
  deriving Repr, DecidableEq

/-- A persisted item-entry row; it points back at its document through the
weak `(reference_id, reference_type)` pair. -/
structure StoredEntry where
  id : Nat
  reference_id : Nat
  reference_type : String
  itemId : Nat
  quantity : Int
  rate : Int
  deriving Repr, DecidableEq

/-- An item row: only its id and sellability matter to the service. -/
structure Item where
  id : Nat
  sellable : Bool
  deriving Repr, DecidableEq

/-- One tenant's storage partition: the set of model tables that
`tenancy.models(tenantId)` resolves to.  Every query and write of the service
is scoped to one such record, so tenant isolation is structural. -/
structure TenantStore where
  estimates : List StoredEstimate
  entries : List StoredEntry
  customers : List Nat
  items : List Item
  nextEstimateId : Nat
  nextEntryId : Nat
  deriving Repr, DecidableEq

/-- Modelled from the spec: `ItemEntry.calcAmount` (model class, not under
src/) computes an entry's amount from its quantity and rate fields ("carries
quantity/rate fields from which its amount is computed").  It reads neither
the client-supplied `amount` nor `total`. -/
def calcAmount (e : EntryDTO) : Int :=
  e.quantity * e.rate

/-- lodash `sumBy`: sum of `f` over the list (0 on the empty list). -/
def sumBy (xs : List EntryDTO) (f : EntryDTO → Int) : Int :=
  (xs.map f).sum

/-- Modelled from the spec: `formatDateFields` (in `utils`, not under src/)
normalizes the named date fields to the canonical date representation and
leaves every other field of the DTO unchanged.  Dates are modelled as
already-canonical day numbers, so normalization fixes them; the point the
claims rely on is that non-date fields, in particular `entries` and
`estimateNumber`, pass through unchanged and no `amount` field is introduced. -/
def formatDateFields (dto : SaleEstimateDTO) : SaleEstimateDTO := dto

/-- JavaScript truthiness of the optional `notEstimateId` argument:
`undefined` and `0` are falsy, any other number is truthy. -/
def truthyId : Option Nat → Bool
  | none => false
  | some k => k != 0

/-- `SaleEstimate.query().findById` on one tenant's table. -/
def findEstimate (s : TenantStore) (estimateId : Nat) : Option StoredEstimate :=
  s.estimates.find? (fun d => d.id == estimateId)

/-- `getSaleEstimateOrThrowError`: find by id or throw
`SALE_ESTIMATE_NOT_FOUND`. -/
def getSaleEstimateOrThrowError (s : TenantStore) (saleEstimateId : Nat) :
    Except ServiceError StoredEstimate :=
  match findEstimate s saleEstimateId with
  | some found => .ok found
  | none => .error ServiceError.saleEstimateNotFound

/-- The row predicate built by `validateEstimateNumberExistance`:
`findOne('estimate_number', n)` with a `whereNot('id', notEstimateId)` added
by `onBuild` only when `notEstimateId` is truthy. -/
def numberClash (estimateNumber : String) (notEstimateId : Option Nat)
    (d : StoredEstimate) : Bool :=
  d.estimateNumber == estimateNumber &&
    (if truthyId notEstimateId then some d.id != notEstimateId else true)

/-- `validateEstimateNumberExistance`: throws
`SALE_ESTIMATE_NUMBER_EXISTANCE` when a row matching `numberClash` is found. -/
def validateEstimateNumberExistance (s : TenantStore) (estimateNumber : String)
    (notEstimateId : Option Nat) : Except ServiceError Unit :=
  match s.estimates.find? (numberClash estimateNumber notEstimateId) with
  | some _ => .error ServiceError.saleEstimateNumberExistance
  | none => .ok ()

/-- Whether an item id exists in the tenant's items table. -/
def itemExists (s : TenantStore) (itemId : Nat) : Bool :=
  s.items.any (fun it => it.id == itemId)

/-- Modelled from the spec: `CustomersService.getCustomer` (not under src/)
"check counterparty exists" — throws `CUSTOMER_NOT_FOUND` when the id is not
in the tenant's customers table. -/
def getCustomer (s : TenantStore) (customerId : Nat) : Except ServiceError Unit :=
  if s.customers.contains customerId then .ok ()
  else .error ServiceError.customerNotFound

/-- The item ids referenced by the entries that do not exist in the tenant's
storage, each listed once. -/
def missingItemIds (s : TenantStore) (entries : List EntryDTO) : List Nat :=
  ((entries.map EntryDTO.itemId).filter (fun i => !itemExists s i)).dedup

/-- Modelled from the spec: `ItemsEntriesService.validateItemsIdsExistance`
(not under src/) — "check every entry's item id exists (fails with an error
listing missing ids)".  Throws `ITEMS_IDS_NOT_EXISTS` carrying exactly the
missing ids. -/
def validateItemsIdsExistance (s : TenantStore) (entries : List EntryDTO) :
    Except ServiceError Unit :=
  match missingItemIds s entries with
  | [] => .ok ()
  | missing => .error (ServiceError.itemsIdsNotExists missing)

/-- Modelled from the spec: `ItemsEntriesService.validateNonSellableEntriesItems`
(not under src/) — "check every entry's item is eligible for this document
type": for a sales document every referenced item must be sellable. -/
def validateNonSellableEntriesItems (s : TenantStore) (entries : List EntryDTO) :
    Except ServiceError Unit :=
  match ((entries.map EntryDTO.itemId).filter
      (fun i => s.items.any (fun it => it.id == i && !it.sellable))).dedup with
  | [] => .ok ()
  | bad => .error (ServiceError.itemsNotSellable bad)

/-- Modelled from the spec: `ItemsEntriesService.validateEntriesIdsExistance`
(not under src/) — entry-existence validation "scoped to entries already
belonging to this Document": every entry id the DTO claims must be the id of
a stored entry whose `(reference_id, reference_type)` equal the given pair;
otherwise it fails listing the offending ids. -/
def validateEntriesIdsExistance (s : TenantStore) (referenceId : Nat)
    (referenceType : String) (entries : List EntryDTO) : Except ServiceError Unit :=
  let storedIds := (s.entries.filter (fun en =>
    en.reference_id == referenceId && en.reference_type == referenceType)).map StoredEntry.id
  match (entries.filterMap EntryDTO.id).filter (fun i => !storedIds.contains i) with
  | [] => .ok ()
  | missing => .error (ServiceError.entriesIdsNotFound missing)

/-- The entry object handed to the ORM graph write.  `id`, `total`, `amount`
are `Option` because the JavaScript object may simply lack the key (after
`omit`). -/
structure EntryWrite where
  reference_type : String
  itemId : Nat
  quantity : Int
  rate : Int
  id : Option Nat
  total : Option Int
  amount : Option Int
  deriving Repr, DecidableEq

/-- The entry payload built by `createEstimate`:
`{ reference_type: 'SaleEstimate', ...omit(entry, ['total', 'amount', 'id']) }`. -/
def createEntryWrite (e : EntryDTO) : EntryWrite :=
  { reference_type := "SaleEstimate"
    itemId := e.itemId
    quantity := e.quantity
    rate := e.rate
    id := none
    total := none
    amount := none }

/-- The entry payload built by `editEstimate`:
`{ reference_type: 'SaleEstimate', ...omit(entry, ['total', 'amount']) }` —
unlike the create path, `id` is not omitted and passes through from the
client DTO. -/
def editEntryWrite (e : EntryDTO) : EntryWrite :=
  { reference_type := "SaleEstimate"
    itemId := e.itemId
    quantity := e.quantity
    rate := e.rate
    id := e.id
    total := none
    amount := none }

/-- Lifecycle-event payloads (`{ tenantId, estimateId, saleEstimate,
oldSaleEstimate }` as dispatched by `editEstimate`). -/
structure EditedPayload where
  tenantId : Nat
  estimateId : Nat
  saleEstimate : StoredEstimate
  oldSaleEstimate : StoredEstimate
  deriving Repr, DecidableEq

/-- Payload dispatched by `deleteEstimate`. -/
structure DeletedPayload where
  tenantId : Nat
  saleEstimateId : Nat
  oldSaleEstimate : StoredEstimate
  deriving Repr, DecidableEq

/-- The payload the spec expects on the created event (`{ tenantId, id,
document }`). -/
structure CreatedPayload where
  tenantId : Nat
  estimateId : Nat
  saleEstimate : StoredEstimate
  deriving Repr, DecidableEq

/-- Lifecycle events of the sale-estimate service.  The created event's
payload is optional because `dispatch(events.saleEstimates.onCreated)` may be
called with no payload argument. -/
inductive SaleEstimateEvent where
  | onCreated (payload : Option CreatedPayload)
  | onEdited (payload : EditedPayload)
  | onDeleted (payload : DeletedPayload)
  deriving Repr, DecidableEq

/-- The externally visible steps a service method performs, in execution
order: storage writes and event dispatches. -/
inductive ServiceAction where
  | persistGraph (doc : StoredEstimate) (entryWrites : List EntryWrite)
  | deleteEntriesWhere (reference_id : Nat) (reference_type : String)
  | deleteDocument (id : Nat)
  | dispatch (e : SaleEstimateEvent)
  deriving Repr, DecidableEq

/-- The stored row produced by inserting an entry write with a server-assigned
id under a document. -/
def storedEntryOfWrite (estId serverId : Nat) (w : EntryWrite) : StoredEntry :=
  { id := serverId
    reference_id := estId
    reference_type := w.reference_type
    itemId := w.itemId
    quantity := w.quantity
    rate := w.rate }

/-- Insert a fresh document together with its entry writes, assigning server
ids from the tenant's counters (the insert half of `upsertGraphAndFetch`). -/
def insertEstimateWithEntries (s : TenantStore) (est : StoredEstimate)
    (ws : List EntryWrite) : TenantStore :=
  { s with
    estimates := s.estimates ++ [est]
    entries := s.entries ++
      ((List.range ws.length).zip ws).map
        (fun p => storedEntryOfWrite est.id (s.nextEntryId + p.1) p.2)
    nextEstimateId := s.nextEstimateId + 1
    nextEntryId := s.nextEntryId + ws.length }

/-- Modelled from the spec: the update half of `upsertGraphAndFetch` (ORM, not
under src/) — "full graph replace: old Entries not present in the new DTO are
deleted; others are updated or inserted".  Entry writes carrying an id update
the stored row of that id; id-less writes are inserted with fresh server ids;
the document's other entries are deleted; the document row is replaced. -/
def upsertEstimateGraph (s : TenantStore) (est : StoredEstimate)
    (ws : List EntryWrite) : TenantStore :=
  let claimed := ws.filterMap EntryWrite.id
  let kept := s.entries.filter (fun en =>
    !(en.reference_id == est.id && en.reference_type == "SaleEstimate" &&
      !claimed.contains en.id))
  let updated := kept.map (fun en =>
    match ws.find? (fun w => w.id == some en.id) with
    | some w => { en with
        reference_id := est.id
        reference_type := w.reference_type
        itemId := w.itemId
        quantity := w.quantity
        rate := w.rate }
    | none => en)
  let fresh := ws.filter (fun w => w.id == none)
  let inserted := ((List.range fresh.length).zip fresh).map
    (fun p => storedEntryOfWrite est.id (s.nextEntryId + p.1) p.2)
  { s with
    estimates := s.estimates.map (fun d => if d.id == est.id then est else d)
    entries := updated ++ inserted
    nextEntryId := s.nextEntryId + fresh.length }

/-- Result of a successful `createEstimate`: the new store, the persisted
document, and the ordered externally visible actions. -/
structure CreateResult where
  store : TenantStore
  saleEstimate : StoredEstimate
  actions : List ServiceAction
  deriving Repr, DecidableEq

/-- `createEstimate`: computes the document amount as the sum of computed
entry amounts, runs the validation gates in source order, then performs the
graph write and dispatches the created event — with no payload argument, as
in the source. -/
def createEstimate (tenantId : Nat) (s : TenantStore) (estimateDTO : SaleEstimateDTO) :
    Except ServiceError CreateResult :=
  let amount := sumBy estimateDTO.entries calcAmount
  let dtoF := formatDateFields estimateDTO
  match validateEstimateNumberExistance s dtoF.estimateNumber none with
  | .error e => .error e
  | .ok () =>
    match getCustomer s dtoF.customerId with
    | .error e => .error e
    | .ok () =>
      match validateItemsIdsExistance s dtoF.entries with
      | .error e => .error e
      | .ok () =>
        match validateNonSellableEntriesItems s dtoF.entries with
        | .error e => .error e
        | .ok () =>
          let newEst : StoredEstimate :=
            { id := s.nextEstimateId
              estimateNumber := dtoF.estimateNumber
              customerId := dtoF.customerId
              amount := amount
              estimateDate := dtoF.estimateDate
              expirationDate := dtoF.expirationDate }
          let ws := dtoF.entries.map createEntryWrite
          .ok { store := insertEstimateWithEntries s newEst ws
                saleEstimate := newEst
                actions := [ServiceAction.persistGraph newEst ws,
                            ServiceAction.dispatch (SaleEstimateEvent.onCreated none)] }

/-- Result of a successful `editEstimate`. -/
structure EditResult where
  store : TenantStore
  saleEstimate : StoredEstimate
  oldSaleEstimate : StoredEstimate
  actions : List ServiceAction
  deriving Repr, DecidableEq

/-- `editEstimate`: loads the existing document, recomputes the amount, runs
the gates in source order — the entry-existence gate is called with the
reference type string `'SaleEstiamte'` exactly as written in the source —
then performs the graph upsert and dispatches the edited event with both
snapshots. -/
def editEstimate (tenantId : Nat) (s : TenantStore) (estimateId : Nat)
    (estimateDTO : SaleEstimateDTO) : Except ServiceError EditResult :=
  match getSaleEstimateOrThrowError s estimateId with
  | .error e => .error e
  | .ok oldSaleEstimate =>
    let amount := sumBy estimateDTO.entries calcAmount
    let dtoF := formatDateFields estimateDTO
    match validateEstimateNumberExistance s dtoF.estimateNumber (some estimateId) with
    | .error e => .error e
    | .ok () =>
      match getCustomer s dtoF.customerId with
      | .error e => .error e
      | .ok () =>
        match validateEntriesIdsExistance s estimateId "SaleEstiamte" dtoF.entries with
        | .error e => .error e
        | .ok () =>
          match validateItemsIdsExistance s dtoF.entries with
          | .error e => .error e
          | .ok () =>
            match validateNonSellableEntriesItems s dtoF.entries with
            | .error e => .error e
            | .ok () =>
              let newEst : StoredEstimate :=
                { id := estimateId
                  estimateNumber := dtoF.estimateNumber
                  customerId := dtoF.customerId
                  amount := amount
                  estimateDate := dtoF.estimateDate
                  expirationDate := dtoF.expirationDate }
              let ws := dtoF.entries.map editEntryWrite
              .ok { store := upsertEstimateGraph s newEst ws
                    saleEstimate := newEst
                    oldSaleEstimate := oldSaleEstimate
                    actions := [ServiceAction.persistGraph newEst ws,
                                ServiceAction.dispatch (SaleEstimateEvent.onEdited
                                  { tenantId := tenantId
                                    estimateId := estimateId
                                    saleEstimate := newEst
                                    oldSaleEstimate := oldSaleEstimate })] }

/-- The first delete of `deleteEstimate`:
`ItemEntry.query().where('reference_id', estimateId).where('reference_type', 'SaleEstimate').delete()`. -/
def deleteEntriesStep (s : TenantStore) (estimateId : Nat) : TenantStore :=
  { s with entries := s.entries.filter (fun en =>
      !(en.reference_id == estimateId && en.reference_type == "SaleEstimate")) }

/-- The second delete of `deleteEstimate`:
`SaleEstimate.query().where('id', estimateId).delete()`. -/
def deleteDocumentStep (s : TenantStore) (estimateId : Nat) : TenantStore :=
  { s with estimates := s.estimates.filter (fun d => !(d.id == estimateId)) }

/-- Result of a successful `deleteEstimate`. -/
structure DeleteResult where
  store : TenantStore
  oldSaleEstimate : StoredEstimate
  actions : List ServiceAction
  deriving Repr, DecidableEq

/-- `deleteEstimate`: load-or-throw, delete the entries by
`(reference_id, reference_type)`, delete the document row, dispatch the
deleted event.  The two deletes are two independent awaited storage calls in
the source — no transaction wraps them. -/
def deleteEstimate (tenantId : Nat) (s : TenantStore) (estimateId : Nat) :
    Except ServiceError DeleteResult :=
  match getSaleEstimateOrThrowError s estimateId with
  | .error e => .error e
  | .ok oldSaleEstimate =>
    let s1 := deleteEntriesStep s estimateId
    let s2 := deleteDocumentStep s1 estimateId
    .ok { store := s2
          oldSaleEstimate := oldSaleEstimate
          actions := [ServiceAction.deleteEntriesWhere estimateId "SaleEstimate",
                      ServiceAction.deleteDocument estimateId,
                      ServiceAction.dispatch (SaleEstimateEvent.onDeleted
                        { tenantId := tenantId
                          saleEstimateId := estimateId
                          oldSaleEstimate := oldSaleEstimate })] }

/-- The tenant state visible if execution stops right after the entries
delete of `deleteEstimate` succeeds and before the document delete takes
effect.  Because the source wraps the two deletes in no transaction, the
entries delete commits on its own, so this is the state a subsequent read
observes when the document delete fails. -/
def deleteEstimateAfterEntriesDelete (s : TenantStore) (estimateId : Nat) :
    Option TenantStore :=
  match getSaleEstimateOrThrowError s estimateId with
  | .error _ => none
  | .ok _ => some (deleteEntriesStep s estimateId)

/-- `getEstimate` result: the document with its entries eagerly attached. -/
structure EstimateWithEntries where
  estimate : StoredEstimate
  entries : List StoredEntry
  deriving Repr, DecidableEq

/-- The entries belonging to a document through the weak back-reference pair. -/
def entriesOf (s : TenantStore) (referenceId : Nat) (referenceType : String) :
    List StoredEntry :=
  s.entries.filter (fun en =>
    en.reference_id == referenceId && en.reference_type == referenceType)

/-- `getEstimate`: `findById` with entries graph-fetched, throwing
`SALE_ESTIMATE_NOT_FOUND` when absent. -/
def getEstimate (s : TenantStore) (estimateId : Nat) :
    Except ServiceError EstimateWithEntries :=
  match findEstimate s estimateId with
  | some est => .ok { estimate := est, entries := entriesOf s estimateId "SaleEstimate" }
  | none => .error ServiceError.saleEstimateNotFound

/-! ## Listing and pagination -/

/-- The list filter: declarative conditions are external; what the claims use
is the 1-based `page` and `pageSize` of `IEstimatesFilter`. -/
structure EstimatesFilter where
  page : Nat
  pageSize : Nat
  deriving Repr, DecidableEq

/-- Pagination metadata returned by the pagination plugin: the zero-based
page index it was handed, the page size and the total count. -/
structure PaginationMeta where
  pageIndex : Nat
  pageSize : Nat
  total : Nat
  deriving Repr, DecidableEq

/-- Filter metadata: echo of the applied filter state
(`dynamicFilter.getResponseMeta()`). -/
structure FilterMeta where
  filter : EstimatesFilter
  deriving Repr, DecidableEq

/-- Modelled from the spec: the ORM `pagination` plugin (not under src/) takes
a zero-indexed page and a page size and returns that slice of the stable
total ordering of the query's results, with pagination metadata. -/
def paginate (xs : List StoredEstimate) (page pageSize : Nat) :
    List StoredEstimate × PaginationMeta :=
  ((xs.drop (page * pageSize)).take pageSize,
   { pageIndex := page, pageSize := pageSize, total := xs.length })

/-- Result of `estimatesList`. -/
structure ListResult where
  salesEstimates : List StoredEstimate
  pagination : PaginationMeta
  filterMeta : FilterMeta
  deriving Repr, DecidableEq

/-- `estimatesList`: the dynamic list service (modelled from the spec: it
scopes the query to the tenant and yields a stable total ordering, here the
tenant's stored order) feeds the pagination plugin, which is called with
`estimatesFilter.page - 1` and the unchanged `pageSize`, exactly as in the
source. -/
def estimatesList (s : TenantStore) (estimatesFilter : EstimatesFilter) : ListResult :=
  let p := paginate s.estimates (estimatesFilter.page - 1) estimatesFilter.pageSize
  { salesEstimates := p.1
    pagination := p.2
    filterMeta := { filter := estimatesFilter } }

/-! ## The `deleteBill` Redux action creator -/

/-- A successful HTTP response (opaque to the action creator beyond being
passed to `resolve`). -/
structure ApiResponse where
  status : Nat
  deriving Repr, DecidableEq

/-- The error object of a failed request: `error.response.data.errors` may be
absent (`undefined`), modelled as `none`. -/
structure ApiFailure where
  errors : Option (List String)
  deriving Repr, DecidableEq

/-- Outcome of the HTTP DELETE call. -/
inductive ApiResult where
  | success (response : ApiResponse)
  | failure (error : ApiFailure)
  deriving Repr, DecidableEq

/-- Redux actions the bill action creators dispatch. -/
inductive BillAction where
  | billDelete (id : Nat)
  deriving Repr, DecidableEq

/-- The settled state of the promise `deleteBill` returns. -/
inductive DeleteBillOutcome where
  | resolved (response : ApiResponse)
  | rejected (errors : List String)
  deriving Repr, DecidableEq

/-- `deleteBill({ id })`: on success dispatches `BILL_DELETE` with the id and
resolves with the response; on failure dispatches nothing and rejects with
`error.response.data.errors || []`.  Returns the dispatched actions in order
together with the promise outcome. -/
def deleteBill (id : Nat) (result : ApiResult) : List BillAction × DeleteBillOutcome :=
  match result with
  | .success response => ([BillAction.billDelete id], .resolved response)
  | .failure error => ([], .rejected (error.errors.getD []))

/-! ## Concrete fixtures -/

/-- An empty tenant partition. -/
def emptyStore : TenantStore :=
  { estimates := [], entries := [], customers := [], items := []
    nextEstimateId := 1, nextEntryId := 1 }

/-- A persisted estimate used by the fixtures. -/
def est1 : StoredEstimate :=
  { id := 1, estimateNumber := "EST-1", customerId := 7, amount := 10
    estimateDate := 100, expirationDate := 200 }

/-- A tenant partition holding customer 7, two sellable items, estimate
`est1` and its single entry (id 10). -/
def store0 : TenantStore :=
  { estimates := [est1]
    entries := [{ id := 10, reference_id := 1, reference_type := "SaleEstimate"
                  itemId := 1, quantity := 2, rate := 5 }]
    customers := [7]
    items := [{ id := 1, sellable := true }, { id := 2, sellable := true }]
    nextEstimateId := 2
    nextEntryId := 11 }

/-- A valid DTO whose entries reference existing sellable items and carry
client-supplied `total`/`amount` values that the service must ignore. -/
def dto0 : SaleEstimateDTO :=
  { estimateNumber := "EST-2", customerId := 7
    estimateDate := 110, expirationDate := 210
    entries := [{ itemId := 1, quantity := 2, rate := 3, total := some 999, amount := some 888 },
                { itemId := 2, quantity := 4, rate := 5 }] }

/-- Placeholder estimate for the `ok`-projection helpers. -/
def dummyEstimate : StoredEstimate :=
  { id := 0, estimateNumber := "", customerId := 0, amount := 0
    estimateDate := 0, expirationDate := 0 }

/-- Projection of a create result out of `Except` (placeholder on error). -/
def okCreate (x : Except ServiceError CreateResult) : CreateResult :=
  match x with
  | .ok r => r
  | .error _ => { store := emptyStore, saleEstimate := dummyEstimate, actions := [] }

/-- Projection of an edit result out of `Except` (placeholder on error). -/
def okEdit (x : Except ServiceError EditResult) : EditResult :=
  match x with
  | .ok r => r
  | .error _ => { store := emptyStore, saleEstimate := dummyEstimate
                  oldSaleEstimate := dummyEstimate, actions := [] }

/-- Projection of a delete result out of `Except` (placeholder on error). -/
def okDelete (x : Except ServiceError DeleteResult) : DeleteResult :=
  match x with
  | .ok r => r
  | .error _ => { store := emptyStore, oldSaleEstimate := dummyEstimate, actions := [] }

deriving instance DecidableEq for Except

/-! ## Claim C5 -/

/-- C5: the claim that the entry delete and document delete of
`deleteEstimate` form a single atomic unit fails on the code: the source
issues two independent awaited deletes with no transaction, so the state
after the entries delete commits — entries gone, document row still present —
is observable whenever the document delete fails.  Witnessed concretely on
`store0`. -/
theorem C5_nonatomic_delete_state_observable :
    deleteEstimateAfterEntriesDelete store0 1 = some (deleteEntriesStep store0 1) ∧
    entriesOf (deleteEntriesStep store0 1) 1 "SaleEstimate" = [] ∧
    findEstimate (deleteEntriesStep store0 1) 1 = some est1 := by decide

/-! ## Claim C6 -/

/-- A DTO entry carrying a client-supplied id, total and amount. -/
def entryC6 : EntryDTO :=
  { itemId := 1, quantity := 2, rate := 3, id := some 5, total := some 99, amount := some 77 }

/-- C6 counterexample: on the edit write path the client-supplied entry `id`
is not discarded — `editEstimate` builds its entry payload with
`omit(entry, ['total', 'amount'])`, so the id passes straight through from
the client DTO, refuting the claim that `id` is discarded and reassigned on
either write operation. -/
theorem C6_counterexample_edit_keeps_client_entry_id :
    ¬ (editEntryWrite entryC6).id = none ∧ (editEntryWrite entryC6).id = entryC6.id := by
  decide

/-- C6 (amended): on both writes each entry payload has `reference_type`
stamped to `'SaleEstimate'` and client-supplied `total`/`amount` discarded;
the client `id` is discarded on create, but on edit it is preserved from the
DTO (used to address the existing entry row). -/
theorem C6_entry_write_payload_fields (e : EntryDTO) :
    (createEntryWrite e).reference_type = "SaleEstimate" ∧
    (createEntryWrite e).total = none ∧
    (createEntryWrite e).amount = none ∧
    (createEntryWrite e).id = none ∧
    (editEntryWrite e).reference_type = "SaleEstimate" ∧
    (editEntryWrite e).total = none ∧
    (editEntryWrite e).amount = none ∧
    (editEntryWrite e).id = e.id :=
  ⟨rfl, rfl, rfl, rfl, rfl, rfl, rfl, rfl⟩

/-! ## Claim C7 -/

/-- An edit DTO claiming to update entry 10, which really belongs to estimate
1 of `store0` under reference type `'SaleEstimate'`. -/
def dtoC7 : SaleEstimateDTO :=
  { estimateNumber := "EST-1", customerId := 7
    estimateDate := 100, expirationDate := 200
    entries := [{ itemId := 1, quantity := 3, rate := 4, id := some 10 }] }

/-- C7: the claim is right and the code is wrong.  Entry 10 belongs to
estimate 1 under reference type `'SaleEstimate'`, and the entry-existence
validation at that reference type accepts the DTO; but `editEstimate` invokes
the validator with the misspelled literal `'SaleEstiamte'`, under which no
stored entry matches, so the edit fails with `ENTRIES_IDS_NOT_FOUND [10]`
even though the claimed entry id does belong to the edited document. -/
theorem C7_edit_entry_validation_uses_misspelled_reference_type :
    editEstimate 1 store0 1 dtoC7 = .error (ServiceError.entriesIdsNotFound [10]) ∧
    validateEntriesIdsExistance store0 1 "SaleEstimate" dtoC7.entries = .ok () ∧
    validateEntriesIdsExistance store0 1 "SaleEstiamte" dtoC7.entries =
      .error (ServiceError.entriesIdsNotFound [10]) := by decide

/-! ## Claim C8 -/

/-- C8: the claim is right and the code is wrong about the payload.  On a
successful create the event dispatch does come strictly after the persisting
graph write in the action sequence, but
`dispatch(events.saleEstimates.onCreated)` is called with no payload
argument, so subscribers receive no `{ tenantId, id, document }` — unlike the
edited and deleted events, whose dispatches do carry payloads. -/
theorem C8_created_event_after_write_but_without_payload :
    createEstimate 1 store0 dto0 = .ok (okCreate (createEstimate 1 store0 dto0)) ∧
    (okCreate (createEstimate 1 store0 dto0)).actions =
      [ServiceAction.persistGraph (okCreate (createEstimate 1 store0 dto0)).saleEstimate
        (dto0.entries.map createEntryWrite),
       ServiceAction.dispatch (SaleEstimateEvent.onCreated none)] := by decide

/-! ## Claim C10 -/

/-- C10: `deleteBill` dispatches the `BILL_DELETE` store update only on a
successful server response; on any failing request it dispatches nothing and
rejects with `error.response.data.errors || []` — the server's error list,
defaulting to the empty list, never an undefined value. -/
theorem C10_deleteBill_dispatches_only_after_success
    (id : Nat) (error : ApiFailure) (response : ApiResponse) :
    deleteBill id (.failure error) = ([], .rejected (error.errors.getD [])) ∧
    deleteBill id (.success response) = ([BillAction.billDelete id], .resolved response) :=
  ⟨rfl, rfl⟩

/-! ## Claim C9 -/

/-- C9: `estimatesList` hands the pagination plugin the filter's 1-based
`page` as `page - 1` together with the unchanged `pageSize`, and returns the
result page with pagination and filter metadata; `page = 1` with
`pageSize = n` yields at most `n` results, and pages 1 and 2 concatenate to
the first `2 * n` elements of the stable ordering — the next slice with no
overlap and no gap. -/
theorem C9_pagination_one_based_boundary (s : TenantStore) (f : EstimatesFilter) (n : Nat) :
    (estimatesList s f).pagination.pageIndex = f.page - 1 ∧
    (estimatesList s f).pagination.pageSize = f.pageSize ∧
    (estimatesList s f).filterMeta = { filter := f } ∧
    (estimatesList s f).salesEstimates =
      (s.estimates.drop ((f.page - 1) * f.pageSize)).take f.pageSize ∧
    (estimatesList s { page := 1, pageSize := n }).salesEstimates.length ≤ n ∧
    (estimatesList s { page := 1, pageSize := n }).salesEstimates ++
        (estimatesList s { page := 2, pageSize := n }).salesEstimates =
      s.estimates.take (2 * n) := by
  have h1 : (estimatesList s { page := 1, pageSize := n }).salesEstimates =
      s.estimates.take n := by
    simp [estimatesList, paginate]
  have h2 : (estimatesList s { page := 2, pageSize := n }).salesEstimates =
      (s.estimates.drop n).take n := by
    simp [estimatesList, paginate]
  refine ⟨rfl, rfl, rfl, rfl, ?_, ?_⟩
  · rw [h1]
    exact List.length_take_le n s.estimates
  · rw [h1, h2, two_mul, List.take_add]

/-! ## Claim C1 -/

/-- C1: each write operation, taken on its own, persists a document whose
`amount` equals the sum over the DTO's entries of `ItemEntry.calcAmount`:
whenever `createEstimate` succeeds its result document carries that sum (and
sits in the resulting store), and whenever `editEstimate` succeeds — on any
store, document id and DTO, independently of the create conjunct — its
result document carries that sum.  `calcAmount` reads only quantity and
rate, so the amount is independent of any client-supplied entry
`amount`/`total`. -/
theorem C1_persisted_amount_is_sum_of_computed_entry_amounts :
    (∀ (tenantId : Nat) (s : TenantStore) (dto : SaleEstimateDTO) (rc : CreateResult),
      createEstimate tenantId s dto = .ok rc →
        rc.saleEstimate.amount = sumBy dto.entries calcAmount ∧
        rc.saleEstimate ∈ rc.store.estimates) ∧
    (∀ (tenantId : Nat) (s : TenantStore) (estimateId : Nat) (dto : SaleEstimateDTO)
        (re : EditResult),
      editEstimate tenantId s estimateId dto = .ok re →
        re.saleEstimate.amount = sumBy dto.entries calcAmount) := by
  constructor
  · intro tenantId s dto rc hc
    simp only [createEstimate, formatDateFields] at hc
    split at hc
    · cases hc
    split at hc
    · cases hc
    split at hc
    · cases hc
    split at hc
    · cases hc
    cases hc
    refine ⟨rfl, ?_⟩
    simp [insertEstimateWithEntries]
  · intro tenantId s estimateId dto re he
    simp only [editEstimate, formatDateFields] at he
    split at he
    · cases he
    split at he
    · cases he
    split at he
    · cases he
    split at he
    · cases he
    split at he
    · cases he
    split at he
    · cases he
    cases he
    rfl

/-- An edit DTO keeping the unchanged number of `est1` — an input on which
`editEstimate` succeeds while a create with the same DTO would fail
uniqueness, so the two conjuncts of C1 are exercised independently. -/
def dtoEditKeep : SaleEstimateDTO :=
  { estimateNumber := "EST-1", customerId := 7
    estimateDate := 140, expirationDate := 240
    entries := [{ itemId := 1, quantity := 3, rate := 7, total := some 555 }] }

/-- C1 witness: the create conjunct applied to the successful create of
`dto0` (whose entries carry client-supplied `total`/`amount` values) on
`store0`, and the edit conjunct applied to the successful edit of estimate 1
keeping its own number — a case where the create on the same store and DTO
fails. -/
theorem C1_persisted_amount_witness :
    ((okCreate (createEstimate 1 store0 dto0)).saleEstimate.amount =
        sumBy dto0.entries calcAmount ∧
      (okCreate (createEstimate 1 store0 dto0)).saleEstimate ∈
        (okCreate (createEstimate 1 store0 dto0)).store.estimates) ∧
    (okEdit (editEstimate 1 store0 1 dtoEditKeep)).saleEstimate.amount =
      sumBy dtoEditKeep.entries calcAmount :=
  ⟨C1_persisted_amount_is_sum_of_computed_entry_amounts.1 1 store0 dto0
      (okCreate (createEstimate 1 store0 dto0)) (by decide),
    C1_persisted_amount_is_sum_of_computed_entry_amounts.2 1 store0 1 dtoEditKeep
      (okEdit (editEstimate 1 store0 1 dtoEditKeep)) (by decide)⟩

/-! ## Claim C2 -/

/-- C2: when the uniqueness and customer gates pass but some entry references
a nonexistent item id, `createEstimate` fails with `ITEMS_IDS_NOT_EXISTS`
carrying exactly the missing ids (each referenced id that is absent from the
tenant's items table, listed once), and no result store is produced — the
validation gates all run before the graph write, so the failure leaves the
store unchanged. -/
theorem C2_create_fails_with_exact_missing_item_ids
    (tenantId : Nat) (s : TenantStore) (dto : SaleEstimateDTO)
    (hnum : validateEstimateNumberExistance s dto.estimateNumber none = .ok ())
    (hcust : getCustomer s dto.customerId = .ok ())
    (hmiss : missingItemIds s dto.entries ≠ []) :
    createEstimate tenantId s dto =
      .error (ServiceError.itemsIdsNotExists (missingItemIds s dto.entries)) ∧
    (∀ r, createEstimate tenantId s dto ≠ .ok r) ∧
    (∀ i, i ∈ missingItemIds s dto.entries ↔
      i ∈ dto.entries.map EntryDTO.itemId ∧ itemExists s i = false) := by
  have hval : validateItemsIdsExistance s dto.entries =
      .error (ServiceError.itemsIdsNotExists (missingItemIds s dto.entries)) := by
    unfold validateItemsIdsExistance
    cases h : missingItemIds s dto.entries with
    | nil => exact absurd h hmiss
    | cons a l => rfl
  have h1 : createEstimate tenantId s dto =
      .error (ServiceError.itemsIdsNotExists (missingItemIds s dto.entries)) := by
    simp only [createEstimate, formatDateFields, hnum, hcust, hval]
  refine ⟨h1, ?_, ?_⟩
  · intro r hr
    rw [h1] at hr
    cases hr
  · intro i
    simp [missingItemIds, List.mem_filter]

/-- A create DTO referencing the nonexistent item id 99 (twice) next to the
existing item 1. -/
def dtoMiss : SaleEstimateDTO :=
  { estimateNumber := "EST-9", customerId := 7
    estimateDate := 120, expirationDate := 220
    entries := [{ itemId := 1, quantity := 1, rate := 2 },
                { itemId := 99, quantity := 3, rate := 4 },
                { itemId := 99, quantity := 5, rate := 6 }] }

/-- C2 witness: on `store0`, creating `dtoMiss` fails with
`ITEMS_IDS_NOT_EXISTS` listing exactly `[99]`. -/
theorem C2_create_fails_with_exact_missing_item_ids_witness :
    createEstimate 1 store0 dtoMiss =
      .error (ServiceError.itemsIdsNotExists (missingItemIds store0 dtoMiss.entries)) ∧
    (∀ r, createEstimate 1 store0 dtoMiss ≠ .ok r) ∧
    (∀ i, i ∈ missingItemIds store0 dtoMiss.entries ↔
      i ∈ dtoMiss.entries.map EntryDTO.itemId ∧ itemExists store0 i = false) :=
  C2_create_fails_with_exact_missing_item_ids 1 store0 dtoMiss
    (by decide) (by decide) (by decide)

/-! ## Claim C3: helper lemmas -/

/-- The uniqueness gate passes exactly when no stored row matches the built
predicate. -/
lemma validateNumber_ok_iff (s : TenantStore) (n : String) (excl : Option Nat) :
    validateEstimateNumberExistance s n excl = .ok () ↔
      ∀ d ∈ s.estimates, ¬ numberClash n excl d = true := by
  unfold validateEstimateNumberExistance
  cases hfs : s.estimates.find? (numberClash n excl) with
  | some x =>
    simp only [reduceCtorEq, false_iff]
    intro hall
    have hx := List.find?_some hfs
    have hmem := List.mem_of_find?_eq_some hfs
    exact hall x hmem hx
  | none =>
    rw [List.find?_eq_none] at hfs
    simpa using hfs

/-- The uniqueness gate errors exactly when some stored row matches. -/
lemma validateNumber_error_of_clash {s : TenantStore} {n : String}
    {excl : Option Nat} {d : StoredEstimate}
    (hd : d ∈ s.estimates) (hclash : numberClash n excl d = true) :
    validateEstimateNumberExistance s n excl =
      .error ServiceError.saleEstimateNumberExistance := by
  unfold validateEstimateNumberExistance
  cases hfs : s.estimates.find? (numberClash n excl) with
  | some x => rfl
  | none =>
    rw [List.find?_eq_none] at hfs
    exact absurd hclash (hfs d hd)

/-- `getCustomer` can only fail with the customer-not-found error. -/
lemma getCustomer_error_shape {s : TenantStore} {c : Nat} {e : ServiceError}
    (h : getCustomer s c = .error e) : e = ServiceError.customerNotFound := by
  unfold getCustomer at h
  split at h
  · cases h
  · cases h; rfl

/-- The entry-existence gate can only fail with the entries-not-found error. -/
lemma validateEntriesIdsExistance_error_shape {s : TenantStore} {rid : Nat}
    {rt : String} {es : List EntryDTO} {e : ServiceError}
    (h : validateEntriesIdsExistance s rid rt es = .error e) :
    ∃ ids, e = ServiceError.entriesIdsNotFound ids := by
  unfold validateEntriesIdsExistance at h
  simp only [] at h
  split at h
  · cases h
  · cases h
    exact ⟨_, rfl⟩

/-- The item-existence gate can only fail with the items-not-exists error. -/
lemma validateItemsIdsExistance_error_shape {s : TenantStore}
    {es : List EntryDTO} {e : ServiceError}
    (h : validateItemsIdsExistance s es = .error e) :
    ∃ ids, e = ServiceError.itemsIdsNotExists ids := by
  unfold validateItemsIdsExistance at h
  split at h
  · cases h
  · cases h
    exact ⟨_, rfl⟩

/-- The sellability gate can only fail with the non-sellable error. -/
lemma validateNonSellable_error_shape {s : TenantStore}
    {es : List EntryDTO} {e : ServiceError}
    (h : validateNonSellableEntriesItems s es = .error e) :
    ∃ ids, e = ServiceError.itemsNotSellable ids := by
  unfold validateNonSellableEntriesItems at h
  split at h
  · cases h
  · cases h
    exact ⟨_, rfl⟩

/-- C3: the uniqueness gate is tenant-scoped and self-excluding.  (i) When
another document of the same tenant already uses the DTO's estimate number, a
create fails with `SALE_ESTIMATE_NUMBER_EXISTANCE`.  (ii) In a tenant whose
partition has no document with that number, the gate passes.  (iii) For a
document whose number is used by no other document of its tenant, the gate
with the document's own id excluded passes, and (iv) an edit keeping the
document's own unchanged number never fails with the duplicate error. -/
theorem C3_number_uniqueness_tenant_scoped_and_self_excluding
    (tenantId : Nat) (s s2 : TenantStore) (dto dtoKeep : SaleEstimateDTO)
    (d e : StoredEstimate)
    (hd : d ∈ s.estimates) (hdup : d.estimateNumber = dto.estimateNumber)
    (hother : ∀ d2 ∈ s2.estimates, d2.estimateNumber ≠ dto.estimateNumber)
    (hfind : findEstimate s e.id = some e) (hez : e.id ≠ 0)
    (huniq : ∀ d2 ∈ s.estimates, d2.estimateNumber = e.estimateNumber → d2.id = e.id)
    (hkeep : dtoKeep.estimateNumber = e.estimateNumber) :
    createEstimate tenantId s dto = .error ServiceError.saleEstimateNumberExistance ∧
    validateEstimateNumberExistance s2 dto.estimateNumber none = .ok () ∧
    validateEstimateNumberExistance s e.estimateNumber (some e.id) = .ok () ∧
    editEstimate tenantId s e.id dtoKeep ≠ .error ServiceError.saleEstimateNumberExistance := by
  have hv1 : validateEstimateNumberExistance s dto.estimateNumber none =
      .error ServiceError.saleEstimateNumberExistance :=
    validateNumber_error_of_clash hd (by simp [numberClash, truthyId, hdup])
  have hv2 : validateEstimateNumberExistance s2 dto.estimateNumber none = .ok () := by
    rw [validateNumber_ok_iff]
    intro d2 hd2
    simp [numberClash, truthyId]
    exact hother d2 hd2
  have hv3 : validateEstimateNumberExistance s e.estimateNumber (some e.id) = .ok () := by
    rw [validateNumber_ok_iff]
    intro d2 hd2
    simp [numberClash, truthyId, hez]
    intro hnum2
    exact huniq d2 hd2 hnum2
  refine ⟨?_, hv2, hv3, ?_⟩
  · simp only [createEstimate, formatDateFields, hv1]
  · have hv3' : validateEstimateNumberExistance s dtoKeep.estimateNumber (some e.id) = .ok () := by
      rw [hkeep]; exact hv3
    simp only [editEstimate, formatDateFields, getSaleEstimateOrThrowError, hfind, hv3']
    cases hg : getCustomer s dtoKeep.customerId with
    | error err =>
      simp only [hg]
      rw [getCustomer_error_shape hg]
      simp
    | ok u =>
      cases u
      simp only [hg]
      cases hen : validateEntriesIdsExistance s e.id "SaleEstiamte" dtoKeep.entries with
      | error err =>
        simp only [hen]
        obtain ⟨ids, hids⟩ := validateEntriesIdsExistance_error_shape hen
        rw [hids]
        simp
      | ok u =>
        cases u
        simp only [hen]
        cases hit : validateItemsIdsExistance s dtoKeep.entries with
        | error err =>
          simp only [hit]
          obtain ⟨ids, hids⟩ := validateItemsIdsExistance_error_shape hit
          rw [hids]
          simp
        | ok u =>
          cases u
          simp only [hit]
          cases hns : validateNonSellableEntriesItems s dtoKeep.entries with
          | error err =>
            simp only [hns]
            obtain ⟨ids, hids⟩ := validateNonSellable_error_shape hns
            rw [hids]
            simp
          | ok u =>
            cases u
            simp only [hns]
            simp

/-- A create DTO reusing the estimate number of `est1`. -/
def dtoDup : SaleEstimateDTO :=
  { estimateNumber := "EST-1", customerId := 7
    estimateDate := 130, expirationDate := 230
    entries := [] }

/-- C3 witness: concrete duplicate-create failure in `store0`, success of the
same number against an empty second tenant, and a self-number edit of `est1`
that does not fail uniqueness. -/
theorem C3_number_uniqueness_witness :
    createEstimate 1 store0 dtoDup = .error ServiceError.saleEstimateNumberExistance ∧
    validateEstimateNumberExistance emptyStore dtoDup.estimateNumber none = .ok () ∧
    validateEstimateNumberExistance store0 est1.estimateNumber (some est1.id) = .ok () ∧
    editEstimate 1 store0 est1.id dtoDup ≠ .error ServiceError.saleEstimateNumberExistance :=
  C3_number_uniqueness_tenant_scoped_and_self_excluding 1 store0 emptyStore dtoDup dtoDup
    est1 est1 (by decide) (by decide) (by decide) (by decide) (by decide) (by decide)
    (by decide)

/-! ## Claim C4 -/

/-- C4: for every existing document id, `deleteEstimate` succeeds, and in the
resulting store a `getEstimate` on that id fails with
`SALE_ESTIMATE_NOT_FOUND` while the query for entries by
`(reference_id, reference_type)` returns the empty list — no orphaned
entries. -/
theorem C4_delete_removes_document_and_all_its_entries
    (tenantId : Nat) (s : TenantStore) (estimateId : Nat) (d : StoredEstimate)
    (hfind : findEstimate s estimateId = some d) :
    ∃ r, deleteEstimate tenantId s estimateId = .ok r ∧
      getEstimate r.store estimateId = .error ServiceError.saleEstimateNotFound ∧
      entriesOf r.store estimateId "SaleEstimate" = [] := by
  have hdel : deleteEstimate tenantId s estimateId = .ok
      { store := deleteDocumentStep (deleteEntriesStep s estimateId) estimateId
        oldSaleEstimate := d
        actions := [ServiceAction.deleteEntriesWhere estimateId "SaleEstimate",
                    ServiceAction.deleteDocument estimateId,
                    ServiceAction.dispatch (SaleEstimateEvent.onDeleted
                      { tenantId := tenantId
                        saleEstimateId := estimateId
                        oldSaleEstimate := d })] } := by
    simp only [deleteEstimate, getSaleEstimateOrThrowError, hfind]
  refine ⟨_, hdel, ?_, ?_⟩
  · have hnone : findEstimate
        (deleteDocumentStep (deleteEntriesStep s estimateId) estimateId) estimateId = none := by
      unfold findEstimate deleteDocumentStep deleteEntriesStep
      rw [List.find?_eq_none]
      intro x hx
      have hkeep := (List.mem_filter.mp hx).2
      simp only [Bool.not_eq_true'] at hkeep
      simp [hkeep]
    simp [getEstimate, hnone]
  · unfold entriesOf deleteDocumentStep deleteEntriesStep
    rw [List.filter_eq_nil_iff]
    intro a ha
    have hkeep := (List.mem_filter.mp ha).2
    simp only [Bool.not_eq_true'] at hkeep
    simp only [hkeep]
    exact Bool.false_ne_true

/-- C4 witness: deleting estimate 1 of `store0` leaves neither the document
nor any of its entries behind. -/
theorem C4_delete_removes_document_witness :
    ∃ r, deleteEstimate 1 store0 1 = .ok r ∧
      getEstimate r.store 1 = .error ServiceError.saleEstimateNotFound ∧
      entriesOf r.store 1 "SaleEstimate" = [] :=
  C4_delete_removes_document_and_all_its_entries 1 store0 1 est1 (by decide)
